import Mathlib

/-!
Shallow embedding of the derived-statistics (StatsAggregator) layer of the
course-management dashboard.  The repository contains two view variants of
the aggregation code:

* variant `V1` — the unnamed source file (a `DashboardOverview` component
  using `date-fns` helpers `isBefore` / `isAfter`);
* variant `V2` — `src/pages/DashboardOverview.tsx` (using `new Date`
  comparisons and an inline trailing-24-hex-token regex).

Modelling conventions:
* Date fields (`startdatum`, `enddatum`, `anmeldedatum`) are ISO strings in
  the source, always consumed through the external date library
  (`parseISO(..).getTime()` / `new Date(..)` comparisons).  Date parsing is
  an external collaborator, so a date field is modelled by its parsed
  timestamp, an `Option Int` (absent string ↦ `none`).
* JavaScript numbers (`preis`) are modelled by `ℚ`.
* The optional boolean `bezahlt` is used for its truthiness: `some true` is
  truthy; `some false` and `none` are falsy.
* `Array.prototype.sort` with a numeric comparator is a stable sort; it is
  modelled with `List.mergeSort` on the comparator's key order.
* `Promise.all` of the five fetches is modelled by `Except`-sequencing.
-/

/-- Course lifecycle status, the four string literals of the source. -/
inductive Status where
  | geplant
  | aktiv
  | abgeschlossen
  | abgesagt
deriving DecidableEq, Repr

/-- `Dozenten` record (types/app.ts). -/
structure Dozent where
  record_id : String
  name : Option String := none
  email : Option String := none
  telefon : Option String := none
  fachgebiet : Option String := none
deriving DecidableEq, Repr

/-- `Teilnehmer` record (types/app.ts).  `geburtsdatum` is a parsed timestamp. -/
structure Teilnehmer where
  record_id : String
  name : Option String := none
  email : Option String := none
  telefon : Option String := none
  geburtsdatum : Option Int := none
deriving DecidableEq, Repr

/-- `Raeume` record (types/app.ts). -/
structure Raum where
  record_id : String
  raumname : Option String := none
  gebaeude : Option String := none
  kapazitaet : Option Int := none
deriving DecidableEq, Repr

/-- `Kurse` record (types/app.ts); dates as parsed timestamps, price as `ℚ`. -/
structure Kurs where
  record_id : String
  titel : Option String := none
  beschreibung : Option String := none
  startdatum : Option Int := none
  enddatum : Option Int := none
  max_teilnehmer : Option Int := none
  preis : Option ℚ := none
  dozent : Option String := none
  raum : Option String := none
  status : Option Status := none
deriving DecidableEq, Repr

/-- `Anmeldungen` record (types/app.ts); `kurs`/`teilnehmer` are URL-like
reference strings, `anmeldedatum` a parsed timestamp. -/
structure Anmeldung where
  record_id : String
  teilnehmer : Option String := none
  kurs : Option String := none
  anmeldedatum : Option Int := none
  bezahlt : Option Bool := none
deriving DecidableEq, Repr

/-- The `Stats` snapshot held in component state (five fetched collections). -/
structure Stats where
  kurse : List Kurs
  anmeldungen : List Anmeldung
  dozenten : List Dozent
  teilnehmer : List Teilnehmer
  raeume : List Raum
deriving DecidableEq, Repr

/-- JavaScript truthiness of the optional `bezahlt` flag:
`undefined` and `false` are falsy. -/
def truthy : Option Bool → Bool
  | some b => b
  | none => false

/-- A character matched by `[a-f0-9]` under the case-insensitive flag `i`. -/
def isHexTokenChar (c : Char) : Bool :=
  c.isDigit || (decide ('a' ≤ c) && decide (c ≤ 'f')) || (decide ('A' ≤ c) && decide (c ≤ 'F'))

/-- `s.match(/([a-f0-9]{24})$/i)?.[1]`: the capture group is the trailing
24 characters of `s` when they are all (case-insensitive) hex digits,
otherwise the match is absent. -/
def matchTrailing24Hex (s : String) : Option String :=
  let cs := s.data
  if 24 ≤ cs.length && (cs.drop (cs.length - 24)).all isHexTokenChar then
    some (String.mk (cs.drop (cs.length - 24)))
  else
    none

/-- The course-reference identity of a registration:
`a.fields.kurs?.match(/([a-f0-9]{24})$/i)?.[1]`. -/
def kursRef (a : Anmeldung) : Option String :=
  a.kurs.bind matchTrailing24Hex

/-- `stats?.anmeldungen.length ?? 0` (identical in both variants). -/
def anmeldungenCount : Option Stats → Nat
  | some st => st.anmeldungen.length
  | none => 0

/-- Core of `bezahltCount` on a registration list:
`anmeldungen.filter(a => a.fields.bezahlt).length`. -/
def bezahltCountCore (anmeldungen : List Anmeldung) : Nat :=
  (anmeldungen.filter (fun a => truthy a.bezahlt)).length

/-- `stats?.anmeldungen.filter(a => a.fields.bezahlt).length ?? 0`
(identical in both variants). -/
def bezahltCount : Option Stats → Nat
  | some st => bezahltCountCore st.anmeldungen
  | none => 0

/-- Core of `unbezahltCount`: total minus paid. -/
def unbezahltCountCore (anmeldungen : List Anmeldung) : Nat :=
  anmeldungen.length - bezahltCountCore anmeldungen

/-- `(stats?.anmeldungen.length ?? 0) - bezahltCount` (identical in both
variants). -/
def unbezahltCount (stats : Option Stats) : Nat :=
  anmeldungenCount stats - bezahltCount stats

/-- Sort key used by both variants' upcoming-course comparators:
`parseISO(k.fields.startdatum!).getTime()` (resp. `new Date(...)`); the
filters guarantee the field is present there. -/
def startKey (k : Kurs) : Int :=
  k.startdatum.getD 0

namespace V1

/-- The active-course filter predicate of variant 1:
`if (!start) return false; return isBefore(start, today) && (!end || isAfter(end, today));`. -/
def isActive (today : Int) (k : Kurs) : Bool :=
  match k.startdatum with
  | none => false
  | some s =>
    decide (s < today) &&
      (match k.enddatum with
       | none => true
       | some e => decide (today < e))

/-- `stats?.kurse.filter(k => ...) ?? []` — variant 1's `activeKurse`. -/
def activeKurse (today : Int) : Option Stats → List Kurs
  | some st => st.kurse.filter (isActive today)
  | none => []

/-- Variant 1's `upcomingKurse`: filter `start && isAfter(start, today)`,
stable-sort ascending by the parsed start time, take the first 5. -/
def upcomingKurse (today : Int) : Option Stats → List Kurs
  | some st =>
    ((st.kurse.filter (fun k => k.startdatum.any (fun s => decide (today < s)))).mergeSort
        (fun a b => decide (startKey a ≤ startKey b))).take 5
  | none => []

/-- Sort key of variant 1's recent-registration comparator:
`a.fields.anmeldedatum ? parseISO(a.fields.anmeldedatum).getTime() : 0`. -/
def anmeldeKey (a : Anmeldung) : Int :=
  a.anmeldedatum.getD 0

/-- The stable descending-by-date sort inside variant 1's
`recentAnmeldungen` (comparator `db - da`). -/
def recentSorted : Option Stats → List Anmeldung
  | some st => st.anmeldungen.mergeSort (fun x y => decide (anmeldeKey y ≤ anmeldeKey x))
  | none => []

/-- Variant 1's `recentAnmeldungen`: the descending-by-date sort of all
registrations, truncated by `.slice(0, 6)`. -/
def recentAnmeldungen (stats : Option Stats) : List Anmeldung :=
  (recentSorted stats).take 6

end V1

namespace V2

/-- Variant 2's `aktiveKurse`:
`stats?.kurse.filter(k => k.fields.status === 'aktiv').length ?? 0`. -/
def aktiveKurse : Option Stats → Nat
  | some st => (st.kurse.filter (fun k => k.status == some Status.aktiv)).length
  | none => 0

/-- Core of variant 2's `gesamtUmsatz` reduce: for each course, filter the
registrations whose extracted course reference equals the course identity,
then add `price × (paid ones among them)`. -/
def gesamtUmsatzCore (kurse : List Kurs) (anmeldungen : List Anmeldung) : ℚ :=
  kurse.foldl
    (fun sum k =>
      let kursAnmeldungen := anmeldungen.filter (fun a => kursRef a == some k.record_id)
      sum + k.preis.getD 0 * ((kursAnmeldungen.filter (fun a => truthy a.bezahlt)).length : ℚ))
    0

/-- `stats?.kurse.reduce(...) ?? 0` — variant 2's `gesamtUmsatz`. -/
def gesamtUmsatz : Option Stats → ℚ
  | some st => gesamtUmsatzCore st.kurse st.anmeldungen
  | none => 0

/-- The fixed display colors keyed by status (`STATUS_COLORS`). -/
def STATUS_COLORS : Status → String
  | .geplant => "oklch(0.72 0.18 55)"
  | .aktiv => "oklch(0.62 0.18 160)"
  | .abgeschlossen => "oklch(0.52 0.22 268)"
  | .abgesagt => "oklch(0.577 0.245 27.325)"

/-- The display labels keyed by status (`STATUS_LABELS`). -/
def STATUS_LABELS : Status → String
  | .geplant => "Geplant"
  | .aktiv => "Aktiv"
  | .abgeschlossen => "Abgeschlossen"
  | .abgesagt => "Abgesagt"

/-- The literal list `['geplant', 'aktiv', 'abgeschlossen', 'abgesagt']`. -/
def statusList : List Status :=
  [Status.geplant, Status.aktiv, Status.abgeschlossen, Status.abgesagt]

/-- `stats?.kurse.filter(k => k.fields.status === s).length ?? 0`. -/
def countStatus (stats : Option Stats) (s : Status) : Nat :=
  match stats with
  | some st => (st.kurse.filter (fun k => k.status == some s)).length
  | none => 0

/-- One bucket of variant 2's `statusData`. -/
structure StatusDatum where
  name : String
  value : Nat
  color : String
deriving DecidableEq, Repr

/-- Variant 2's `statusData`: one bucket per status literal, then
`.filter(d => d.value > 0)`. -/
def statusData (stats : Option Stats) : List StatusDatum :=
  (statusList.map fun s =>
      ({ name := STATUS_LABELS s, value := countStatus stats s, color := STATUS_COLORS s } : StatusDatum)).filter
    (fun d => decide (0 < d.value))

/-- Per-course registration count of variant 2 (inside `kursAnmeldungenData`
and `gesamtUmsatz`): registrations whose trailing-24-hex course-reference
token equals the course's `record_id`. -/
def countForKurs (anmeldungen : List Anmeldung) (k : Kurs) : Nat :=
  (anmeldungen.filter (fun a => kursRef a == some k.record_id)).length

/-- One entry of variant 2's `kursAnmeldungenData`. -/
structure KursDatum where
  name : String
  anmeldungen : Nat
deriving DecidableEq, Repr

/-- Variant 2's `kursAnmeldungenData`: per-course name/count pairs,
stable-sorted descending by count, truncated by `.slice(0, 6)`. -/
def kursAnmeldungenData : Option Stats → List KursDatum
  | some st =>
    ((st.kurse.map fun k =>
        ({ name := k.titel.getD "Unbekannt", anmeldungen := countForKurs st.anmeldungen k } : KursDatum)).mergeSort
        (fun a b => decide (b.anmeldungen ≤ a.anmeldungen))).take 6
  | none => []

/-- Variant 2's `upcomingKurse`: filter
`k.fields.startdatum && new Date(k.fields.startdatum) >= today`,
stable-sort ascending by start time, take the first 4. -/
def upcomingKurse (today : Int) : Option Stats → List Kurs
  | some st =>
    ((st.kurse.filter (fun k => k.startdatum.any (fun s => decide (today ≤ s)))).mergeSort
        (fun a b => decide (startKey a ≤ startKey b))).take 4
  | none => []

/-- Whether a fetch result is a rejection. -/
def isErr {ε α : Type} : Except ε α → Bool
  | .error _ => true
  | .ok _ => false

/-- `Promise.all` over the five collection fetches: succeeds with the full
snapshot only when every fetch succeeds, otherwise propagates a rejection. -/
def promiseAll5 {ε : Type} (rk : Except ε (List Kurs)) (ra : Except ε (List Anmeldung))
    (rd : Except ε (List Dozent)) (rt : Except ε (List Teilnehmer))
    (rr : Except ε (List Raum)) : Except ε Stats := do
  let kurse ← rk
  let anmeldungen ← ra
  let dozenten ← rd
  let teilnehmer ← rt
  let raeume ← rr
  return { kurse, anmeldungen, dozenten, teilnehmer, raeume }

/-- The component state after the load effect settles. -/
structure ViewState where
  stats : Option Stats
  loading : Bool
deriving DecidableEq, Repr

/-- The load effect: `Promise.all(...).then(setStats).catch(console.error)
.finally(() => setLoading(false))` — on success the snapshot is stored, on
any rejection `stats` stays `null`; `loading` ends `false` either way. -/
def load {ε : Type} (rk : Except ε (List Kurs)) (ra : Except ε (List Anmeldung))
    (rd : Except ε (List Dozent)) (rt : Except ε (List Teilnehmer))
    (rr : Except ε (List Raum)) : ViewState :=
  match promiseAll5 rk ra rd rt rr with
  | .ok st => { stats := some st, loading := false }
  | .error _ => { stats := none, loading := false }

end V2

/-! ### Shared helper lemmas -/

/-- One summand of the revenue reduce: `price × |paid registrations among
those whose reference matches the course|`. -/
def umsatzTerm (anmeldungen : List Anmeldung) (k : Kurs) : ℚ :=
  k.preis.getD 0 *
    (((anmeldungen.filter (fun a => kursRef a == some k.record_id)).filter
        (fun a => truthy a.bezahlt)).length : ℚ)

lemma foldl_add_eq_sum {α : Type} (f : α → ℚ) :
    ∀ (l : List α) (c : ℚ), l.foldl (fun s k => s + f k) c = c + (l.map f).sum
  | [], c => by simp
  | k :: l, c => by
    rw [List.foldl_cons, foldl_add_eq_sum f l (c + f k), List.map_cons, List.sum_cons]
    ring

lemma gesamtUmsatzCore_eq_sum (kurse : List Kurs) (anmeldungen : List Anmeldung) :
    V2.gesamtUmsatzCore kurse anmeldungen = (kurse.map (umsatzTerm anmeldungen)).sum := by
  show kurse.foldl (fun s k => s + umsatzTerm anmeldungen k) 0 = _
  rw [foldl_add_eq_sum, zero_add]

lemma filter_match_paid (anmeldungen : List Anmeldung) (k : Kurs) :
    (anmeldungen.filter (fun a => kursRef a == some k.record_id)).filter
        (fun a => truthy a.bezahlt) =
      anmeldungen.filter (fun a => truthy a.bezahlt && (kursRef a == some k.record_id)) := by
  rw [List.filter_filter]

/-! ### C3 -/

/-- Claim C3: for every course and registration collection, the computed
total revenue equals the sum over all courses of the course's price (0 if
absent) times the number of registrations that are paid and whose extracted
course-reference identity (trailing 24-character case-insensitive hex token)
equals that course's identity; unpaid or unmatched registrations contribute
nothing to any summand. -/
theorem C3_revenue_is_sum (kurse : List Kurs) (anmeldungen : List Anmeldung) :
    V2.gesamtUmsatzCore kurse anmeldungen =
      (kurse.map fun k =>
        k.preis.getD 0 *
          ((anmeldungen.filter
              (fun a => truthy a.bezahlt && (kursRef a == some k.record_id))).length : ℚ)).sum := by
  rw [gesamtUmsatzCore_eq_sum]
  refine congrArg List.sum (List.map_congr_left fun k _ => ?_)
  rw [umsatzTerm, filter_match_paid]

/-! ### C4 -/

/-- A course with a negative price (its identity is a 24-hex-digit string). -/
def negKurs : Kurs :=
  { record_id := "0123456789abcdef01234567", preis := some (-5) }

/-- A paid registration whose reference string ends in `negKurs`'s identity. -/
def paidAnm : Anmeldung :=
  { record_id := "a1", kurs := some "0123456789abcdef01234567", bezahlt := some true }

/-- Claim C4 counterexample: with a course of price −5 and one paid matching
registration, the computed revenue is −5 < 0, so revenue ≥ 0 does not hold
for every collection. -/
theorem C4_counterexample : V2.gesamtUmsatzCore [negKurs] [paidAnm] < 0 := by
  have hm : kursRef paidAnm = some "0123456789abcdef01234567" := by decide
  have hp : truthy paidAnm.bezahlt = true := rfl
  rw [gesamtUmsatzCore_eq_sum]
  simp [umsatzTerm, List.filter_cons, hm, hp, negKurs]

/-- Claim C4 (amended): the computed total revenue is nonnegative whenever
every course price present is nonnegative, and it equals 0 whenever no
registration in the collection is paid. -/
theorem C4_amended (kurse : List Kurs) (anmeldungen : List Anmeldung) :
    ((∀ k ∈ kurse, 0 ≤ k.preis.getD 0) → 0 ≤ V2.gesamtUmsatzCore kurse anmeldungen) ∧
    ((∀ a ∈ anmeldungen, truthy a.bezahlt = false) →
      V2.gesamtUmsatzCore kurse anmeldungen = 0) := by
  constructor
  · intro hp
    rw [gesamtUmsatzCore_eq_sum]
    refine List.sum_nonneg fun x hx => ?_
    obtain ⟨k, hk, rfl⟩ := List.mem_map.mp hx
    exact mul_nonneg (hp k hk) (Nat.cast_nonneg _)
  · intro hnp
    rw [gesamtUmsatzCore_eq_sum]
    refine List.sum_eq_zero fun x hx => ?_
    obtain ⟨k, hk, rfl⟩ := List.mem_map.mp hx
    have hnil :
        anmeldungen.filter (fun a => truthy a.bezahlt && (kursRef a == some k.record_id)) = [] :=
      List.filter_eq_nil_iff.mpr fun a ha => by simp [hnp a ha]
    rw [umsatzTerm, filter_match_paid, hnil]
    simp

/-- Witness for `C4_amended` at a concrete collection. -/
theorem C4_amended_witness :
    (0 : ℚ) ≤ V2.gesamtUmsatzCore [] [paidAnm] ∧ V2.gesamtUmsatzCore [negKurs] [] = 0 :=
  ⟨(C4_amended [] [paidAnm]).1 (fun k hk => by simp at hk),
    (C4_amended [negKurs] []).2 (fun a ha => by simp at ha)⟩

/-! ### C6 -/

/-- Claim C6: for every registration collection (in either variant's state,
loaded or not), the paid count plus the unpaid count equals the total number
of registrations. -/
theorem C6_paid_plus_unpaid (stats : Option Stats) :
    bezahltCount stats + unbezahltCount stats = anmeldungenCount stats := by
  cases stats with
  | none => rfl
  | some st =>
    have h := List.length_filter_le (fun a => truthy a.bezahlt) st.anmeldungen
    simp only [bezahltCount, unbezahltCount, anmeldungenCount, bezahltCountCore]
    omega

/-! ### C10 -/

/-- Claim C10: a registration whose paid flag is absent is treated exactly
like an unpaid one — excluded from the paid count, included in the unpaid
count, and contributing zero to revenue. -/
theorem C10_missing_paid_flag (a : Anmeldung) (anmeldungen : List Anmeldung)
    (kurse : List Kurs) (h : a.bezahlt = none) :
    bezahltCountCore (a :: anmeldungen) = bezahltCountCore anmeldungen ∧
    unbezahltCountCore (a :: anmeldungen) = unbezahltCountCore anmeldungen + 1 ∧
    V2.gesamtUmsatzCore kurse (a :: anmeldungen) = V2.gesamtUmsatzCore kurse anmeldungen := by
  have ht : truthy a.bezahlt = false := by rw [h]; rfl
  have h1 : bezahltCountCore (a :: anmeldungen) = bezahltCountCore anmeldungen := by
    simp [bezahltCountCore, List.filter_cons, ht]
  refine ⟨h1, ?_, ?_⟩
  · have hle := List.length_filter_le (fun x => truthy x.bezahlt) anmeldungen
    simp only [unbezahltCountCore, h1, List.length_cons, bezahltCountCore] at *
    omega
  · rw [gesamtUmsatzCore_eq_sum, gesamtUmsatzCore_eq_sum]
    refine congrArg List.sum (List.map_congr_left fun k _ => ?_)
    rw [umsatzTerm, umsatzTerm, filter_match_paid, filter_match_paid,
      List.filter_cons_of_neg]
    simp [ht]

/-- A registration with every optional field absent. -/
def blankAnm : Anmeldung :=
  { record_id := "a0" }

/-- Witness for `C10_missing_paid_flag` at a concrete registration. -/
theorem C10_witness :
    bezahltCountCore [blankAnm] = bezahltCountCore [] ∧
    unbezahltCountCore [blankAnm] = unbezahltCountCore [] + 1 ∧
    V2.gesamtUmsatzCore [negKurs] [blankAnm] = V2.gesamtUmsatzCore [negKurs] [] :=
  C10_missing_paid_flag blankAnm [] [negKurs] rfl

/-! ### C1 -/

lemma isActive_eq_true_iff (today : Int) (k : Kurs) :
    V1.isActive today k = true ↔
      ((∃ s, k.startdatum = some s ∧ s < today) ∧
        (k.enddatum = none ∨ ∃ e, k.enddatum = some e ∧ today < e)) := by
  unfold V1.isActive
  rcases hs : k.startdatum with _ | s <;> rcases he : k.enddatum with _ | e <;> simp

/-- A course whose status is `aktiv` but which has no start date. -/
def statusOnlyKurs : Kurs :=
  { record_id := "k1", status := some Status.aktiv }

/-- A snapshot holding only `statusOnlyKurs`. -/
def statusOnlyStats : Stats :=
  { kurse := [statusOnlyKurs], anmeldungen := [], dozenten := [], teilnehmer := [],
    raeume := [] }

/-- Claim C1 counterexample: at instant 0, the second variant's
active-course computation reports 1 for a snapshot holding a single
status-`aktiv` course with no start date, while the date-based active set of
that snapshot is empty — so the second variant does not compute the
date-based active set. -/
theorem C1_counterexample :
    V2.aktiveKurse (some statusOnlyStats) ≠
      (statusOnlyStats.kurse.filter (V1.isActive 0)).length := by
  decide

/-- Claim C1 (amended): the first variant's active-course set contains
exactly the courses of the snapshot whose start date is defined and strictly
before now and whose end date is undefined or strictly after now; the second
variant's active-course computation instead counts the courses whose status
field equals `aktiv`. -/
theorem C1_amended (today : Int) (stats : Stats) :
    (∀ k, k ∈ V1.activeKurse today (some stats) ↔
      (k ∈ stats.kurse ∧ (∃ s, k.startdatum = some s ∧ s < today) ∧
        (k.enddatum = none ∨ ∃ e, k.enddatum = some e ∧ today < e))) ∧
    V2.aktiveKurse (some stats) =
      stats.kurse.countP (fun k => k.status == some Status.aktiv) := by
  constructor
  · intro k
    show k ∈ stats.kurse.filter (V1.isActive today) ↔ _
    rw [List.mem_filter, isActive_eq_true_iff]
  · show (stats.kurse.filter (fun k => k.status == some Status.aktiv)).length = _
    rw [List.countP_eq_length_filter]

/-! ### C2 -/

lemma mem_of_mem_take_mergeSort {α : Type} {le : α → α → Bool} {l : List α} {n : Nat}
    {a : α} (h : a ∈ (l.mergeSort le).take n) : a ∈ l :=
  (List.mergeSort_perm l le).mem_iff.mp (List.take_subset n _ h)

lemma pairwise_startKey_take_mergeSort (l : List Kurs) (n : Nat) :
    List.Pairwise (fun a b => startKey a ≤ startKey b)
      (((l.mergeSort (fun a b => decide (startKey a ≤ startKey b))).take n)) := by
  have hs :=
    @List.sorted_mergeSort _ (fun a b => decide (startKey a ≤ startKey b))
      (fun a b c hab hbc =>
        decide_eq_true (le_trans (of_decide_eq_true hab) (of_decide_eq_true hbc)))
      (fun a b => by simpa using le_total (startKey a) (startKey b)) l
  exact (List.Pairwise.sublist (List.take_sublist n _) hs).imp fun hb => of_decide_eq_true hb

lemma startdatum_any_iff (today : Int) (k : Kurs) (p : Int → Int → Prop)
    [DecidableRel p] :
    (k.startdatum.any fun s => decide (p today s)) = true ↔
      ∃ s, k.startdatum = some s ∧ p today s := by
  rcases hs : k.startdatum with _ | s <;> simp

/-- Claim C2 (amended): in the first variant the upcoming list contains only
courses of the snapshot with a defined start date strictly after now, is
sorted ascending by start date, and has length at most 5; in the second
variant the filter is non-strict — a defined start date at-or-after now —
and the list is sorted ascending with length at most 4. -/
theorem C2_amended (today : Int) (stats : Stats) :
    (∀ k, k ∈ V1.upcomingKurse today (some stats) →
      k ∈ stats.kurse ∧ ∃ s, k.startdatum = some s ∧ today < s) ∧
    List.Pairwise (fun a b => startKey a ≤ startKey b)
      (V1.upcomingKurse today (some stats)) ∧
    (V1.upcomingKurse today (some stats)).length ≤ 5 ∧
    (∀ k, k ∈ V2.upcomingKurse today (some stats) →
      k ∈ stats.kurse ∧ ∃ s, k.startdatum = some s ∧ today ≤ s) ∧
    List.Pairwise (fun a b => startKey a ≤ startKey b)
      (V2.upcomingKurse today (some stats)) ∧
    (V2.upcomingKurse today (some stats)).length ≤ 4 := by
  refine ⟨?_, pairwise_startKey_take_mergeSort _ 5, ?_, ?_,
    pairwise_startKey_take_mergeSort _ 4, ?_⟩
  · intro k hk
    have hm := mem_of_mem_take_mergeSort hk
    have := List.mem_filter.mp hm
    exact ⟨this.1, (startdatum_any_iff today k (· < ·)).mp this.2⟩
  · show ((_ : List Kurs).take 5).length ≤ 5
    simp [List.length_take]
  · intro k hk
    have hm := mem_of_mem_take_mergeSort hk
    have := List.mem_filter.mp hm
    exact ⟨this.1, (startdatum_any_iff today k (· ≤ ·)).mp this.2⟩
  · show ((_ : List Kurs).take 4).length ≤ 4
    simp [List.length_take]

/-- A course starting exactly at the current instant `100`. -/
def boundaryKurs : Kurs :=
  { record_id := "k2", startdatum := some 100 }

/-- A snapshot holding only `boundaryKurs`. -/
def boundaryStats : Stats :=
  { kurse := [boundaryKurs], anmeldungen := [], dozenten := [], teilnehmer := [],
    raeume := [] }

/-- Claim C2 counterexample: at instant 100, the second variant's upcoming
list contains a course starting exactly at 100 — a course starting at (not
strictly after) now — refuting the strict-after property for that variant. -/
theorem C2_counterexample :
    boundaryKurs ∈ V2.upcomingKurse 100 (some boundaryStats) ∧
    ¬ (∃ s, boundaryKurs.startdatum = some s ∧ (100 : Int) < s) := by
  constructor
  · show boundaryKurs ∈
      (([boundaryKurs].filter (fun k => k.startdatum.any fun s => decide ((100:Int) ≤ s))).mergeSort
          (fun a b => decide (startKey a ≤ startKey b))).take 4
    simp [boundaryKurs]
  · rintro ⟨s, hs, hlt⟩
    have : (100 : Int) = s := by simpa [boundaryKurs] using hs
    omega

/-- A course starting strictly in the future (instant 5, "now" being 0). -/
def futureKurs : Kurs :=
  { record_id := "kf", startdatum := some 5 }

/-- A snapshot holding only `futureKurs`. -/
def futureStats : Stats :=
  { kurse := [futureKurs], anmeldungen := [], dozenten := [], teilnehmer := [],
    raeume := [] }

/-- Witness for `C2_amended` at a concrete snapshot and instant. -/
theorem C2_amended_witness :
    (futureKurs ∈ futureStats.kurse ∧ ∃ s, futureKurs.startdatum = some s ∧ (0 : Int) < s) ∧
    (futureKurs ∈ futureStats.kurse ∧ ∃ s, futureKurs.startdatum = some s ∧ (0 : Int) ≤ s) :=
  ⟨(C2_amended 0 futureStats).1 futureKurs (by
      show futureKurs ∈ (([futureKurs].filter _).mergeSort _).take 5
      simp [futureKurs]),
    (C2_amended 0 futureStats).2.2.2.1 futureKurs (by
      show futureKurs ∈ (([futureKurs].filter _).mergeSort _).take 4
      simp [futureKurs])⟩

/-! ### C7 -/

/-- Claim C7: the recent-registrations list is the registrations
stable-sorted descending by registration date (a missing date ordered as
timestamp 0), truncated to the first 6 elements: the sorted list is a
permutation of the registration collection, it is descending in the date
key, and `recentAnmeldungen` is its 6-element prefix. -/
theorem C7_recent_registrations (stats : Stats) :
    (V1.recentSorted (some stats)).Perm stats.anmeldungen ∧
    List.Pairwise (fun x y => V1.anmeldeKey y ≤ V1.anmeldeKey x)
      (V1.recentSorted (some stats)) ∧
    V1.recentAnmeldungen (some stats) = (V1.recentSorted (some stats)).take 6 := by
  refine ⟨List.mergeSort_perm _ _, ?_, rfl⟩
  have hs :=
    @List.sorted_mergeSort _ (fun x y => decide (V1.anmeldeKey y ≤ V1.anmeldeKey x))
      (fun a b c hab hbc =>
        decide_eq_true (le_trans (of_decide_eq_true hbc) (of_decide_eq_true hab)))
      (fun a b => by simpa using le_total (V1.anmeldeKey b) (V1.anmeldeKey a))
      stats.anmeldungen
  exact hs.imp fun hb => of_decide_eq_true hb

/-! ### C5 -/

lemma sum_map_add_nat {α : Type} (f g : α → Nat) (l : List α) :
    (l.map fun k => f k + g k).sum = (l.map f).sum + (l.map g).sum := by
  induction l with
  | nil => simp
  | cons k l ih => simp [ih]; omega

lemma sum_map_indicator (a : Anmeldung) :
    ∀ (kurse : List Kurs), (kurse.map Kurs.record_id).Nodup →
      (kurse.map fun k => if kursRef a == some k.record_id then 1 else 0).sum =
        if kurse.any (fun k => kursRef a == some k.record_id) then 1 else 0
  | [], _ => by simp
  | k :: ks, h => by
    rw [List.map_cons] at h
    have hnd := List.nodup_cons.mp h
    rw [List.map_cons, List.sum_cons, List.any_cons]
    cases hk : (kursRef a == some k.record_id) with
    | true =>
      have hid : kursRef a = some k.record_id := beq_iff_eq.mp hk
      have hz : (ks.map fun k' => if kursRef a == some k'.record_id then 1 else 0).sum = 0 := by
        refine List.sum_eq_zero fun x hx => ?_
        obtain ⟨k', hk', rfl⟩ := List.mem_map.mp hx
        cases hq : (kursRef a == some k'.record_id) with
        | false => simp [hq]
        | true =>
          exfalso
          have he : kursRef a = some k'.record_id := beq_iff_eq.mp hq
          have hrid : k'.record_id = k.record_id :=
            (Option.some_inj.mp (hid.symm.trans he)).symm
          exact hnd.1 (hrid ▸ List.mem_map_of_mem Kurs.record_id hk')
      rw [hz]
      simp
    | false =>
      simpa using sum_map_indicator a ks hnd.2

/-- Claim C5: when the loaded courses have pairwise distinct identities, the
per-course registration counts (the counts entering `kursAnmeldungenData`
before sorting and truncation) sum to the number of registrations whose
extracted course reference equals the identity of some loaded course. -/
theorem C5_counts_partition (kurse : List Kurs) (anmeldungen : List Anmeldung)
    (h : (kurse.map Kurs.record_id).Nodup) :
    (kurse.map fun k => V2.countForKurs anmeldungen k).sum =
      (anmeldungen.filter fun a =>
        kurse.any fun k => kursRef a == some k.record_id).length := by
  induction anmeldungen with
  | nil => simp [V2.countForKurs]
  | cons a anmeldungen ih =>
    have hcount : ∀ k, V2.countForKurs (a :: anmeldungen) k =
        V2.countForKurs anmeldungen k +
          if kursRef a == some k.record_id then 1 else 0 := by
      intro k
      simp only [V2.countForKurs, List.filter_cons]
      cases hk : (kursRef a == some k.record_id) <;> simp [hk]
    have hmap : (kurse.map fun k => V2.countForKurs (a :: anmeldungen) k) =
        kurse.map fun k => V2.countForKurs anmeldungen k +
          if kursRef a == some k.record_id then 1 else 0 :=
      List.map_congr_left fun k _ => hcount k
    rw [hmap, sum_map_add_nat, ih, sum_map_indicator a kurse h, List.filter_cons]
    cases ha : (kurse.any fun k => kursRef a == some k.record_id) <;> simp [ha]

/-- A registration whose reference string resolves to `negKurs`'s identity. -/
def refAnm : Anmeldung :=
  { record_id := "a2", kurs := some "https://example/r/0123456789abcdef01234567" }

/-- Witness for `C5_counts_partition` at a concrete collection. -/
theorem C5_witness :
    ([negKurs].map fun k => V2.countForKurs [refAnm, blankAnm] k).sum =
      ([refAnm, blankAnm].filter fun a =>
        [negKurs].any fun k => kursRef a == some k.record_id).length :=
  C5_counts_partition [negKurs] [refAnm, blankAnm] (by decide)

/-! ### C8 -/

lemma mem_statusList (s : Status) : s ∈ V2.statusList := by
  cases s <;> decide

/-- Claim C8: the status distribution contains, for each of the four status
values with a positive count of matching courses, exactly the bucket
carrying that status's label, count, and fixed color — and it never contains
a bucket with count zero (every bucket arises from a positive-count status). -/
theorem C8_status_distribution (stats : Option Stats) :
    (∀ d, d ∈ V2.statusData stats →
      0 < d.value ∧ ∃ s : Status,
        d = { name := V2.STATUS_LABELS s, value := V2.countStatus stats s,
              color := V2.STATUS_COLORS s }) ∧
    (∀ s : Status, 0 < V2.countStatus stats s ↔
      ({ name := V2.STATUS_LABELS s, value := V2.countStatus stats s,
         color := V2.STATUS_COLORS s } : V2.StatusDatum) ∈ V2.statusData stats) := by
  constructor
  · intro d hd
    have := List.mem_filter.mp hd
    obtain ⟨s, _, rfl⟩ := List.mem_map.mp this.1
    exact ⟨of_decide_eq_true this.2, s, rfl⟩
  · intro s
    constructor
    · intro hpos
      refine List.mem_filter.mpr ⟨List.mem_map_of_mem _ (mem_statusList s), ?_⟩
      exact decide_eq_true hpos
    · intro hmem
      exact of_decide_eq_true (List.mem_filter.mp hmem).2

/-- Witness for `C8_status_distribution` at a concrete snapshot: the single
`aktiv` course yields exactly the `aktiv` bucket, carried with its color. -/
theorem C8_witness :
    0 < ({ name := V2.STATUS_LABELS Status.aktiv,
           value := V2.countStatus (some statusOnlyStats) Status.aktiv,
           color := V2.STATUS_COLORS Status.aktiv } : V2.StatusDatum).value ∧
    ({ name := V2.STATUS_LABELS Status.aktiv,
       value := V2.countStatus (some statusOnlyStats) Status.aktiv,
       color := V2.STATUS_COLORS Status.aktiv } : V2.StatusDatum) ∈
      V2.statusData (some statusOnlyStats) := by
  have hmem :=
    ((C8_status_distribution (some statusOnlyStats)).2 Status.aktiv).mp (by decide)
  exact ⟨((C8_status_distribution (some statusOnlyStats)).1 _ hmem).1, hmem⟩

/-! ### C9 -/

/-- Claim C9: if any of the five collection fetches rejects, the settled
view state has finished loading with no snapshot at all — never a partial
snapshot — and every derived aggregate of the empty state is empty or zero. -/
theorem C9_all_or_nothing {ε : Type} (rk : Except ε (List Kurs))
    (ra : Except ε (List Anmeldung)) (rd : Except ε (List Dozent))
    (rt : Except ε (List Teilnehmer)) (rr : Except ε (List Raum))
    (h : (V2.isErr rk || V2.isErr ra || V2.isErr rd || V2.isErr rt || V2.isErr rr) = true) :
    V2.load rk ra rd rt rr = { stats := none, loading := false } ∧
    (∀ today, V1.activeKurse today none = [] ∧ V1.upcomingKurse today none = [] ∧
      V2.upcomingKurse today none = []) ∧
    anmeldungenCount none = 0 ∧ bezahltCount none = 0 ∧ unbezahltCount none = 0 ∧
    V2.aktiveKurse none = 0 ∧ V2.gesamtUmsatz none = 0 ∧ V2.statusData none = [] ∧
    V2.kursAnmeldungenData none = [] ∧ V1.recentAnmeldungen none = [] := by
  refine ⟨?_, fun today => ⟨rfl, rfl, rfl⟩, rfl, rfl, rfl, rfl, rfl, rfl, rfl, rfl⟩
  cases rk <;> cases ra <;> cases rd <;> cases rt <;> cases rr <;>
    first
      | rfl
      | simp [V2.isErr] at h

/-- Witness for `C9_all_or_nothing`: when the course fetch rejects and the
other four succeed, the settled state holds no snapshot. -/
theorem C9_witness :
    V2.load (Except.error ()) (Except.ok ([] : List Anmeldung))
        (Except.ok ([] : List Dozent)) (Except.ok ([] : List Teilnehmer))
        (Except.ok ([] : List Raum)) =
      { stats := none, loading := false } :=
  (C9_all_or_nothing (Except.error ()) (Except.ok []) (Except.ok []) (Except.ok [])
      (Except.ok []) rfl).1
